import Mathlib

/-!
Verification development for the nf-snowflake-streamlit dashboard.

The definitions below are a shallow embedding of the decision logic of the
repository: the run-history page (src/app_pages/2_history.py), the run-detail
page (src/app_pages/3_detail.py) and the configuration module (src/conf.py).
Pure Python/pandas fragments become Lean functions; timestamps are modeled as
epoch seconds (Int), calendar dates as epoch-day ordinals (Int), and fractional
minute durations as rationals (Rat). Each definition cites the source lines it
embeds.
-/

namespace NfSnowflake

/-! ### Python and pandas primitives -/

/-- Python int() applied to a rational value: truncation toward zero.
Used to model the expression int(minutes * 60) at 2_history.py line 22. -/
def pyInt (q : Rat) : Int := Int.tdiv q.num q.den

/-- Python floor division a // b. All divisors in the embedded code are
positive, for which Euclidean division coincides with floor division. -/
def pyFloorDiv (a b : Int) : Int := Int.ediv a b

/-- Python modulo a % b: result is nonnegative for the positive moduli used
in the embedded code, matching Euclidean remainder. -/
def pyMod (a b : Int) : Int := Int.emod a b

/-- Python "".join(parts). -/
def pyJoin (l : List String) : String := l.foldl (fun a b => a ++ b) ""

/-- ASCII lower-casing of a character list; models Python str.lower() and the
case-insensitive flag of pandas string matching on the ASCII data appearing
in the embedded code. -/
def lowerChars (l : List Char) : List Char := l.map Char.toLower

/-- Substring test on character lists: true when the first list occurs
contiguously inside the second. Models the Python operator needle in hay. -/
def isSubB (needle : List Char) : List Char → Bool
  | [] => needle.isEmpty
  | c :: t => needle.isPrefixOf (c :: t) || isSubB needle t

/-- Python needle in hay on strings (case-sensitive). -/
def pyInStr (needle hay : String) : Bool := isSubB needle.data hay.data

/-- Single-position regex match for the fragment of Python re syntax exercised
by this development: a pattern is a list of characters in which the dot
character is a metacharacter matching any single character and every other
character matches itself literally. -/
def reMatchAt : List Char → List Char → Bool
  | [], _ => true
  | _ :: _, [] => false
  | p :: ps, c :: cs => (p == '.' || p == c) && reMatchAt ps cs

/-- re.search semantics for the modeled pattern fragment: the pattern matches
at some position of the haystack. -/
def reSearch (pat : List Char) : List Char → Bool
  | [] => reMatchAt pat []
  | c :: t => reMatchAt pat (c :: t) || reSearch pat t

/-- pandas Series.str.contains(pat, case=False, na=False) as called at
2_history.py lines 399-401. NOTE: the pandas default regex=True is in effect
there, so the user-supplied search text is interpreted as a regular
expression, searched case-insensitively. The model covers patterns built from
literal characters and the dot metacharacter. -/
def strContains (hay pat : String) : Bool :=
  reSearch (lowerChars pat.data) (lowerChars hay.data)

/-! ### src/conf.py -/

/-- Configuration class storing key-value pairs with descriptions
(conf.py lines 2-22). -/
structure Config where
  key : String
  value : String
  description : String
deriving DecidableEq

/-- conf.py lines 26-30. -/
def NXF_HISTORY_TBL : Config :=
  { key := "NXF_HISTORY_TBL"
    value := "NXF_EXECUTION_HISTORY"
    description := "Snowflake table used for storing Nextflow pipeline execution history and metadata" }

/-- conf.py lines 32-36. -/
def NXF_WORKDIR_STAGE : Config :=
  { key := "NXF_WORKDIR_STAGE"
    value := "NXF_WORKDIR"
    description := "Snowflake stage used for storing Nextflow intermediate files and artifacts" }

/-! ### Run records (2_history.py, load_pipeline_data) -/

/-- One raw row returned by the QUERY_HISTORY_BY_USER query of
2_history.py lines 47-64, restricted to the columns the page reads.
Timestamps are epoch seconds. -/
structure RawRow where
  query_id : String
  database_name : String
  warehouse_name : String
  query_text : String
  execution_status : String
  start_time : Int
  end_time : Int
deriving DecidableEq

/-- The pandas accessor .dt.date on an epoch-seconds timestamp: the calendar
date as an epoch-day ordinal (floor of the number of days since the epoch). -/
def dateOf (t : Int) : Int := Int.ediv t 86400

/-- A run record after the derived columns added by load_pipeline_data. -/
structure RunRecord extends RawRow where
  execution_time_minutes : Rat
  date : Int
deriving DecidableEq

/-- 2_history.py lines 69-74: EXECUTION_TIME_MINUTES is the raw difference
of the two timestamps converted to minutes, with no clamping; DATE is the
date component of END_TIME. -/
def deriveRecord (r : RawRow) : RunRecord :=
  { toRawRow := r
    execution_time_minutes := ((r.end_time - r.start_time : Int) : Rat) / 60
    date := dateOf r.end_time }

/-- Outcome of executing the warehouse query inside the try block of
load_pipeline_data: either the rows, or a raised exception message. -/
inductive QueryOutcome where
  | ok (rows : List RawRow)
  | exc (msg : String)

/-- The user-visible status messages emitted around data loading. -/
inductive UiMessage where
  | retentionError
  | retentionInfo
  | connectionError (msg : String)
  | noDataWarning
  | loadedBanner (n : Nat)
deriving DecidableEq

/-- 2_history.py lines 39-85: load_pipeline_data. On success the derived
columns are added (lines 67-74). On an exception whose text mentions the
retention limitation (line 80), a retention-specific error and info message
are displayed (lines 81-82); otherwise a generic connection error is
displayed (line 84). In every failure case the function returns an empty
DataFrame (line 85). The result pairs the returned rows with the messages
displayed inside the function. -/
def load_pipeline_data (outcome : QueryOutcome) : List RunRecord × List UiMessage :=
  match outcome with
  | .ok rows => (rows.map deriveRecord, [])
  | .exc msg =>
    if pyInStr "more than 7 days ago" msg || pyInStr "Cannot retrieve data" msg then
      ([], [.retentionError, .retentionInfo])
    else
      ([], [.connectionError msg])

/-- 2_history.py lines 129-140: the module-level status display branches only
on emptiness of the returned DataFrame. -/
def displayLoadStatus (df : List RunRecord) : UiMessage :=
  if df.isEmpty then .noDataWarning else .loadedBanner df.length

/-! ### Date-range validation (2_history.py lines 185-190) -/

/-- Result of the date-range validation block: whether the error banner was
shown, and the start and end dates actually used afterwards. -/
structure DateRangeSelection where
  errorShown : Bool
  start_date : Int
  end_date : Int
deriving DecidableEq

/-- 2_history.py lines 185-190: if the selected start date is after the end
date an error message is displayed and the range is reset to the safe
defaults (min_date, max_date); either way execution continues into the
filtering code with the resulting range. -/
def validateDateRange (start_date end_date min_date max_date : Int) :
    DateRangeSelection :=
  if start_date > end_date then
    { errorShown := true, start_date := min_date, end_date := max_date }
  else
    { errorShown := false, start_date := start_date, end_date := end_date }

/-! ### Duration formatting (2_history.py lines 17-36) -/

/-- The parts list built by format_execution_time before the final seconds
rule (lines 28-32): an hours part when hours is positive and a minutes part
when minutes is positive. -/
def partsList (total_seconds : Int) : List String :=
  (if pyFloorDiv total_seconds 3600 > 0 then
     [toString (pyFloorDiv total_seconds 3600) ++ "hr"] else []) ++
  (if pyFloorDiv (pyMod total_seconds 3600) 60 > 0 then
     [toString (pyFloorDiv (pyMod total_seconds 3600) 60) ++ "min"] else [])

/-- Lines 33-34: the seconds part is appended when seconds is positive or
when no part has been produced yet. -/
def partsFinal (total_seconds : Int) : List String :=
  if pyMod (pyMod total_seconds 3600) 60 > 0 ∨ (partsList total_seconds).isEmpty then
    partsList total_seconds ++ [toString (pyMod (pyMod total_seconds 3600) 60) ++ "sec"]
  else
    partsList total_seconds

/-- Lines 22-36 of format_execution_time applied to an integer second count. -/
def formatParts (total_seconds : Int) : String := pyJoin (partsFinal total_seconds)

/-- 2_history.py lines 17-36: format_execution_time. The pd.isna branch is
not modeled because the derivation of line 73 always yields a rational value
when both timestamps are present; a zero input short-circuits to 0sec
(line 19-20). -/
def format_execution_time (minutes : Rat) : String :=
  if minutes = 0 then "0sec" else formatParts (pyInt (minutes * 60))

/-! ### Filter application (2_history.py lines 218-236) -/

/-- The filter inputs collected from the sidebar widgets: start and end date
of the date sub-filter, the selected status list, and the inclusive runtime
range in minutes. -/
structure FilterCriteria where
  start_date : Int
  end_date : Int
  status_filter : List String
  runtime_lo : Rat
  runtime_hi : Rat

/-- 2_history.py lines 218-236: the date mask on the date component of
END_TIME is always applied (lines 222-225); the status membership mask is
applied only when the selected status list is nonempty (lines 228-229,
Python truthiness); the runtime mask is an inclusive numeric range
(lines 232-236; the EXECUTION_TIME_MINUTES column is present on every
loaded record). -/
def applyFilters (records : List RunRecord) (c : FilterCriteria) : List RunRecord :=
  let afterDate := records.filter (fun r =>
    decide (c.start_date ≤ dateOf r.end_time) && decide (dateOf r.end_time ≤ c.end_date))
  let afterStatus :=
    if c.status_filter.isEmpty then afterDate
    else afterDate.filter (fun r => c.status_filter.contains r.execution_status)
  afterStatus.filter (fun r =>
    decide (c.runtime_lo ≤ r.execution_time_minutes) &&
    decide (r.execution_time_minutes ≤ c.runtime_hi))

/-! ### Metrics (2_history.py lines 254-267) -/

/-- The four headline metrics of the overview section. -/
structure Metrics where
  total_runs : Nat
  avg_execution_time_minutes : Rat
  success_rate : Rat
  total_compute_minutes : Rat
deriving DecidableEq

/-- 2_history.py lines 254-267: on a nonempty filtered set, the run count,
the mean of EXECUTION_TIME_MINUTES, the SUCCESS percentage guarded by the
count (line 258), and the sum of EXECUTION_TIME_MINUTES; on an empty set all
four metrics are zero (line 266) and nothing is computed. -/
def computeMetrics (filtered_df : List RunRecord) : Metrics :=
  if filtered_df.isEmpty then
    { total_runs := 0, avg_execution_time_minutes := 0
      success_rate := 0, total_compute_minutes := 0 }
  else
    let total_runs := filtered_df.length
    { total_runs := total_runs
      avg_execution_time_minutes :=
        (filtered_df.map (fun r => r.execution_time_minutes)).sum / (total_runs : Rat)
      success_rate :=
        if 0 < total_runs then
          ((filtered_df.filter (fun r => r.execution_status == "SUCCESS")).length : Rat)
            / (total_runs : Rat) * 100
        else 0
      total_compute_minutes :=
        (filtered_df.map (fun r => r.execution_time_minutes)).sum }

/-- The one-decimal rounding performed by the percent display of
2_history.py line 288 on the success rate. -/
def roundTo1 (q : Rat) : Rat := ((round (q * 10) : Int) : Rat) / 10

/-! ### Search and sort (2_history.py lines 381-409) -/

/-- 2_history.py lines 398-402: the search mask is the disjunction of
str.contains tests (case=False, na=False, pandas default regex=True) on
QUERY_ID, DATABASE_NAME and QUERY_TEXT. -/
def searchMask (r : RunRecord) (search_query : String) : Bool :=
  strContains r.query_id search_query ||
  strContains r.database_name search_query ||
  strContains r.query_text search_query

/-- 2_history.py lines 396-403: the mask is applied only when the search
text is nonempty (Python truthiness of the text-input value). -/
def applySearch (records : List RunRecord) (search_query : String) : List RunRecord :=
  if search_query.isEmpty then records
  else records.filter (fun r => searchMask r search_query)

/-- Formalization of the search behaviour the specification describes
(section 4.4): the search string occurring as a case-insensitive literal
substring of at least one of the three textual fields. Stated from the words
of the specification for comparison with searchMask, which embeds the
source. -/
def specLiteralSearchMatch (r : RunRecord) (q : String) : Bool :=
  isSubB (lowerChars q.data) (lowerChars r.query_id.data) ||
  isSubB (lowerChars q.data) (lowerChars r.database_name.data) ||
  isSubB (lowerChars q.data) (lowerChars r.query_text.data)

/-- The four sortable columns offered at 2_history.py lines 384-389. -/
inductive SortField where
  | end_time
  | execution_time
  | status
  | query_id
deriving DecidableEq

/-- Comparison on the single selected sort column. pandas sort_values is
called with only that column (line 409): there is no secondary key. -/
def sortFieldLe (f : SortField) (a b : RunRecord) : Prop :=
  match f with
  | .end_time => a.end_time ≤ b.end_time
  | .execution_time => a.execution_time_minutes ≤ b.execution_time_minutes
  | .status => a.execution_status ≤ b.execution_status
  | .query_id => a.query_id ≤ b.query_id

instance sortFieldLeDec (f : SortField) : DecidableRel (sortFieldLe f) :=
  fun a b =>
    match f with
    | .end_time => (inferInstance : Decidable (a.end_time ≤ b.end_time))
    | .execution_time =>
      (inferInstance : Decidable (a.execution_time_minutes ≤ b.execution_time_minutes))
    | .status => (inferInstance : Decidable (a.execution_status ≤ b.execution_status))
    | .query_id => (inferInstance : Decidable (a.query_id ≤ b.query_id))

/-- The reversed comparison, used for descending order. -/
def sortFieldGe (f : SortField) (a b : RunRecord) : Prop := sortFieldLe f b a

instance sortFieldGeDec (f : SortField) : DecidableRel (sortFieldGe f) :=
  fun a b => sortFieldLeDec f b a

/-- 2_history.py lines 405-409: display_df.sort_values(sort_column,
ascending=ascending), modeled as a deterministic sort keyed on the selected
column only. The model uses a stable sort; pandas uses quicksort by default,
which likewise applies no run-identifier secondary key. -/
def sortValues (records : List RunRecord) (f : SortField) (ascending : Bool) :
    List RunRecord :=
  if ascending then List.insertionSort (sortFieldLe f) records
  else List.insertionSort (sortFieldGe f) records

/-! ### Artifact retrieval (3_detail.py) and its storage paths -/

/-- The three artifact kinds offered by the tabs of 3_detail.py
(lines 139-242). -/
inductive ArtifactKind where
  | report
  | timeline
  | trace
deriving DecidableEq

/-- The fixed artifact filename passed by each tab call site
(3_detail.py lines 145, 195 and 242). -/
def artifactFilename : ArtifactKind → String
  | .report => "report.html"
  | .timeline => "timeline.html"
  | .trace => "trace.txt"

/-- 3_detail.py line 31: the stage file path is built from the configured
stage root, the run name and the file name before any read is attempted. -/
def stage_file_path (run_name file_name : String) : String :=
  "@" ++ NXF_WORKDIR_STAGE.value ++ "/" ++ run_name ++ "/" ++ file_name

/-- The storage path consulted when fetching an artifact kind for a run. -/
def fetchPath (run_name : String) (k : ArtifactKind) : String :=
  stage_file_path run_name (artifactFilename k)

/-- 3_detail.py lines 16-49: download_file_from_stage. The artifact store is
abstracted as a function from paths to either content or a raised error
message; the function builds the stage path, attempts the read at exactly
that path, and reports (success, content) or (failure, diagnostic). -/
def download_file_from_stage (store : String → Except String String)
    (run_name file_name : String) : Bool × String :=
  match store (stage_file_path run_name file_name) with
  | .ok content => (true, content)
  | .error e => (false, "Error reading file from stage: " ++ e)

/-! ### Concrete records used by the examples of the claims -/

/-- A SUCCESS run of 10 minutes (600 seconds). -/
def exRec1 : RunRecord :=
  { query_id := "q1", database_name := "db1", warehouse_name := "wh1"
    query_text := "select 1", execution_status := "SUCCESS"
    start_time := 0, end_time := 600
    execution_time_minutes := 10, date := 0 }

/-- An ERROR run of 20 minutes. -/
def exRec2 : RunRecord :=
  { query_id := "q2", database_name := "db1", warehouse_name := "wh1"
    query_text := "select 2", execution_status := "ERROR"
    start_time := 0, end_time := 1200
    execution_time_minutes := 20, date := 0 }

/-- A SUCCESS run of 0 minutes. -/
def exRec3 : RunRecord :=
  { query_id := "q3", database_name := "db1", warehouse_name := "wh1"
    query_text := "select 3", execution_status := "SUCCESS"
    start_time := 0, end_time := 0
    execution_time_minutes := 0, date := 0 }

/-- The three-record set used by the metric and filter examples of the
specification. -/
def exRecords : List RunRecord := [exRec1, exRec2, exRec3]

/-- Filter criteria restricting to SUCCESS runs lasting between 5 and 15
minutes; the date range covers the date of every example record (the claim
states no date criterion, and a covering range is the pass-through form of
the always-applied date filter). -/
def exCriteria : FilterCriteria :=
  { start_date := 0, end_date := 0, status_filter := ["SUCCESS"]
    runtime_lo := 5, runtime_hi := 15 }

/-- A raw row whose end_time precedes its start_time by 30 seconds. -/
def badRow : RawRow :=
  { query_id := "q9", database_name := "db1", warehouse_name := "wh1"
    query_text := "select 9", execution_status := "SUCCESS"
    start_time := 60, end_time := 30 }

/-- Two records that tie on END_TIME; the one with the larger QUERY_ID
appears first in the input. -/
def tieB : RunRecord :=
  { query_id := "b", database_name := "db1", warehouse_name := "wh1"
    query_text := "select b", execution_status := "SUCCESS"
    start_time := 0, end_time := 600
    execution_time_minutes := 10, date := 0 }

/-- The tied record with the smaller QUERY_ID, second in the input. -/
def tieA : RunRecord :=
  { query_id := "a", database_name := "db1", warehouse_name := "wh1"
    query_text := "select a", execution_status := "SUCCESS"
    start_time := 0, end_time := 600
    execution_time_minutes := 10, date := 0 }

/-- A record containing the letters a, x, b in QUERY_ID and no dot in any
searched field. -/
def dotRec : RunRecord :=
  { query_id := "axb", database_name := "dbx", warehouse_name := "whx"
    query_text := "qtx", execution_status := "SUCCESS"
    start_time := 0, end_time := 0
    execution_time_minutes := 0, date := 0 }

/-- An exception message matching both retention substrings of
2_history.py line 80. -/
def retMsg : String := "Cannot retrieve data more than 7 days ago"

/-! ### Helper lemmas -/

/-- pyInt agrees with the identity on integral rationals. -/
theorem pyInt_intCast (n : Int) : pyInt ((n : Int) : Rat) = n := by
  simp [pyInt, Rat.num_intCast, Rat.den_intCast]

theorem pyJoin_go_length (l : List String) (s : String) :
    (List.foldl (fun a b => a ++ b) s l).length = s.length + (l.map String.length).sum := by
  induction l generalizing s with
  | nil => simp
  | cons p t ih =>
    simp only [List.foldl_cons, ih, List.map_cons, List.sum_cons, String.length_append]
    omega

/-- The length of a joined string is the sum of the part lengths. -/
theorem pyJoin_length (l : List String) :
    (pyJoin l).length = (l.map String.length).sum := by
  have h := pyJoin_go_length l ""
  simpa [pyJoin] using h

theorem ne_empty_of_length_pos {s : String} (h : 0 < s.length) : s ≠ "" := by
  intro he
  rw [he] at h
  exact absurd h (by decide)

/-- The final parts list always receives at least one part, and every part
carries a nonempty unit suffix, so the formatted string is never empty. -/
theorem formatParts_ne_empty (ts : Int) : formatParts ts ≠ "" := by
  have hhr : ("hr" : String).length = 2 := rfl
  have hmin : ("min" : String).length = 3 := rfl
  have hsec : ("sec" : String).length = 3 := rfl
  unfold formatParts partsFinal
  by_cases hc : pyMod (pyMod ts 3600) 60 > 0 ∨ (partsList ts).isEmpty
  · rw [if_pos hc]
    apply ne_empty_of_length_pos
    rw [pyJoin_length]
    simp only [List.map_append, List.sum_append, List.map_cons, List.map_nil,
      List.sum_cons, List.sum_nil, String.length_append, hsec]
    omega
  · rw [if_neg hc]
    push_neg at hc
    obtain ⟨-, hne⟩ := hc
    apply ne_empty_of_length_pos
    rw [pyJoin_length]
    unfold partsList at hne ⊢
    by_cases h1 : pyFloorDiv ts 3600 > 0
    · rw [if_pos h1]
      simp only [List.map_append, List.sum_append, List.map_cons, List.map_nil,
        List.sum_cons, List.sum_nil, String.length_append, hhr]
      omega
    · rw [if_neg h1] at hne ⊢
      by_cases h2 : pyFloorDiv (pyMod ts 3600) 60 > 0
      · rw [if_pos h2]
        simp only [List.nil_append, List.map_cons, List.map_nil, List.sum_cons,
          List.sum_nil, String.length_append, hmin]
        omega
      · rw [if_neg h2] at hne
        simp at hne

/-- The empty needle is a substring of every haystack. -/
theorem isSubB_nil (hay : List Char) : isSubB [] hay = true := by
  cases hay <;> simp [isSubB, List.isPrefixOf]

/-- On patterns without the dot metacharacter, a single-position regex match
is exactly a prefix test. -/
theorem reMatchAt_eq_isPrefixOf (pat : List Char) (h : '.' ∉ pat) (hay : List Char) :
    reMatchAt pat hay = pat.isPrefixOf hay := by
  induction pat generalizing hay with
  | nil => cases hay <;> simp [reMatchAt, List.isPrefixOf]
  | cons p ps ih =>
    have hp : p ≠ '.' := fun hh => h (by simp [hh])
    have hps : '.' ∉ ps := fun hh => h (by simp [hh])
    cases hay with
    | nil => simp [reMatchAt, List.isPrefixOf]
    | cons c cs =>
      simp only [reMatchAt, List.isPrefixOf, ih hps]
      have : (p == '.') = false := by simpa using hp
      rw [this]
      simp

/-- On patterns without the dot metacharacter, the regex search coincides
with the literal substring test. -/
theorem reSearch_eq_isSubB (pat : List Char) (h : '.' ∉ pat) (hay : List Char) :
    reSearch pat hay = isSubB pat hay := by
  induction hay with
  | nil =>
    rw [reSearch, reMatchAt_eq_isPrefixOf pat h]
    cases pat <;> simp [isSubB, List.isPrefixOf]
  | cons c t ih =>
    rw [reSearch, isSubB, reMatchAt_eq_isPrefixOf pat h, ih]

/-- ASCII lower-casing maps only the dot to the dot. -/
theorem toLower_eq_dot {c : Char} (h : Char.toLower c = '.') : c = '.' := by
  simp only [Char.toLower] at h
  split at h
  · rename_i hcond
    exfalso
    obtain ⟨h1, h2⟩ := hcond
    set n := c.toNat with hn
    interval_cases n <;> exact absurd h (by decide)
  · exact h

/-- Lower-casing a dot-free character list cannot introduce a dot. -/
theorem dot_not_mem_lowerChars {l : List Char} (h : '.' ∉ l) :
    '.' ∉ lowerChars l := by
  simp only [lowerChars, List.mem_map, not_exists]
  rintro c ⟨hc, hlc⟩
  exact h (toLower_eq_dot hlc ▸ hc)

/-- The three filter stages fuse into a single conjunctive predicate, with
an empty status list acting as pass-through on its conjunct. -/
theorem applyFilters_eq_filter (records : List RunRecord) (c : FilterCriteria) :
    applyFilters records c = records.filter (fun r =>
      (decide (c.start_date ≤ dateOf r.end_time) && decide (dateOf r.end_time ≤ c.end_date)) &&
      (c.status_filter.isEmpty || c.status_filter.contains r.execution_status) &&
      (decide (c.runtime_lo ≤ r.execution_time_minutes) &&
       decide (r.execution_time_minutes ≤ c.runtime_hi))) := by
  simp only [applyFilters]
  by_cases h : c.status_filter.isEmpty
  · rw [if_pos h, List.filter_filter]
    apply List.filter_congr
    intro r _
    simp only [h, Bool.true_or, Bool.and_true]
    exact Bool.and_comm _ _
  · rw [if_neg h, List.filter_filter, List.filter_filter]
    apply List.filter_congr
    intro r _
    rw [Bool.not_eq_true] at h
    simp only [h, Bool.false_or]
    simp only [Bool.and_comm, Bool.and_left_comm, Bool.and_assoc]

/-- Criteria that restrict nothing leave the record list unchanged. -/
theorem applyFilters_identity (records : List RunRecord) (c : FilterCriteria)
    (hs : c.status_filter = [])
    (hdate : ∀ r ∈ records, c.start_date ≤ dateOf r.end_time ∧ dateOf r.end_time ≤ c.end_date)
    (hdur : ∀ r ∈ records,
      c.runtime_lo ≤ r.execution_time_minutes ∧ r.execution_time_minutes ≤ c.runtime_hi) :
    applyFilters records c = records := by
  rw [applyFilters_eq_filter]
  apply List.filter_eq_self.mpr
  intro r hr
  simp [hs, (hdate r hr).1, (hdate r hr).2, (hdur r hr).1, (hdur r hr).2]

instance sortFieldLeTotal (f : SortField) : IsTotal RunRecord (sortFieldLe f) :=
  ⟨by intro a b; cases f <;> exact le_total _ _⟩

instance sortFieldLeTrans (f : SortField) : IsTrans RunRecord (sortFieldLe f) :=
  ⟨by intro a b c hab hbc; cases f <;> exact le_trans hab hbc⟩

instance sortFieldGeTotal (f : SortField) : IsTotal RunRecord (sortFieldGe f) :=
  ⟨by intro a b; exact (sortFieldLeTotal f).total b a⟩

instance sortFieldGeTrans (f : SortField) : IsTrans RunRecord (sortFieldGe f) :=
  ⟨by intro a b c hab hbc; exact (sortFieldLeTrans f).trans _ _ _ hbc hab⟩

/-- The effective ordering relation of a sort direction: the column
comparison itself when ascending, its reverse when descending. -/
def sortRel (f : SortField) (ascending : Bool) (a b : RunRecord) : Prop :=
  if ascending then sortFieldLe f a b else sortFieldGe f a b

/-! ### Claims -/

/-- C1, counterexample: with loaded data spanning dates 0 to 20 and the
selection start 10, end 1 (start after end), the validation block of
2_history.py lines 185-190 displays an error but does not fail the
resolution: it substitutes the range (0, 20) and filtering proceeds with it,
contradicting the claim that resolution fails rather than proceeding with
any substituted range. -/
theorem c1_invalid_range_counterexample :
    validateDateRange 10 1 0 20 =
      { errorShown := true, start_date := 0, end_date := 20 } := by
  decide

/-- C1, amended: when the selected start date is after the end date, an
error message is displayed and the range is reset to the safe defaults
(min_date, max_date); filtering then proceeds with the substituted range.
Otherwise the selected range is used unchanged with no error. -/
theorem c1_range_validation_amended (s e mn mx : Int) :
    (s > e → validateDateRange s e mn mx =
      { errorShown := true, start_date := mn, end_date := mx }) ∧
    (s ≤ e → validateDateRange s e mn mx =
      { errorShown := false, start_date := s, end_date := e }) := by
  constructor
  · intro h
    rw [validateDateRange, if_pos h]
  · intro h
    rw [validateDateRange, if_neg (not_lt.mpr h)]

/-- Witness for C1 amended at the concrete inverted range. -/
theorem c1_range_validation_witness :
    validateDateRange 10 1 0 20 =
      { errorShown := true, start_date := 0, end_date := 20 } :=
  (c1_range_validation_amended 10 1 0 20).1 (by decide)

/-- C3, counterexample: on a row whose end_time (30 s) precedes its
start_time (60 s), the derivation of 2_history.py line 73 yields the
negative duration -1/2 minute: the claimed never-negative guard does not
exist. -/
theorem c3_duration_counterexample :
    (deriveRecord badRow).execution_time_minutes = -(1/2 : Rat) ∧
    (deriveRecord badRow).execution_time_minutes < 0 := by
  constructor
  · norm_num [deriveRecord, badRow]
  · norm_num [deriveRecord, badRow]

/-- C3, amended: the derived duration is exactly (end_time - start_time)
converted to minutes, with no clamping: whenever end_time precedes
start_time the derived duration is negative. (The loaded rows always carry
an end_time, so no absent-end_time case exists in the code.) -/
theorem c3_duration_amended (r : RawRow) :
    (deriveRecord r).execution_time_minutes =
      ((r.end_time - r.start_time : Int) : Rat) / 60 ∧
    (r.end_time < r.start_time → (deriveRecord r).execution_time_minutes < 0) := by
  refine ⟨rfl, fun h => ?_⟩
  have h1 : ((r.end_time - r.start_time : Int) : Rat) < 0 := by
    have h2 : (r.end_time - r.start_time : Int) < 0 := by omega
    exact_mod_cast h2
  have h3 := div_neg_of_neg_of_pos h1 (by norm_num : (0:Rat) < 60)
  simpa [deriveRecord] using h3

/-- Witness for C3 amended at the concrete skewed row. -/
theorem c3_duration_amended_witness :
    (deriveRecord badRow).execution_time_minutes < 0 :=
  (c3_duration_amended badRow).2 (by decide)

/-- C4, counterexample: a retention-limit exception makes load_pipeline_data
return an empty DataFrame (2_history.py line 85), the very same value a
successful query with zero rows returns, and the module-level caller
(lines 129-140) shows the same no-data warning in both cases: the caller
receives no distinguishable RetentionLimitExceeded condition. -/
theorem c4_retention_counterexample :
    (load_pipeline_data (.exc retMsg)).1 = (load_pipeline_data (.ok [])).1 ∧
    displayLoadStatus (load_pipeline_data (.exc retMsg)).1 = .noDataWarning ∧
    displayLoadStatus (load_pipeline_data (.ok [])).1 = .noDataWarning := by
  decide

/-- C4, amended: on a retention-limit exception a retention-specific error
and info message are displayed as a side effect inside load_pipeline_data,
but the value returned to the caller is an empty DataFrame identical to the
result of a successful query that matched zero rows; the emptiness check of
the caller therefore treats the two cases alike. -/
theorem c4_retention_amended (msg : String)
    (h : (pyInStr "more than 7 days ago" msg || pyInStr "Cannot retrieve data" msg) = true) :
    load_pipeline_data (.exc msg) =
      ([], [.retentionError, .retentionInfo]) ∧
    (load_pipeline_data (.exc msg)).1 = (load_pipeline_data (.ok [])).1 := by
  constructor
  · simp [load_pipeline_data, h]
  · simp [load_pipeline_data, h]

/-- Witness for C4 amended at the concrete retention message. -/
theorem c4_retention_amended_witness :
    load_pipeline_data (.exc retMsg) = ([], [.retentionError, .retentionInfo]) :=
  (c4_retention_amended retMsg (by decide)).1

/-- C9: the artifact storage path is resolved deterministically as the
configured stage root followed by the run name and the fixed per-kind
filename, computed before any read is attempted and hence independent of
whether the artifact exists; in particular the timeline artifact of run
r017n26s resolves to the stated path. -/
theorem c9_artifact_path :
    (∀ (run_name : String) (k : ArtifactKind),
      fetchPath run_name k =
        "@" ++ NXF_WORKDIR_STAGE.value ++ "/" ++ run_name ++ "/" ++ artifactFilename k) ∧
    artifactFilename .report = "report.html" ∧
    artifactFilename .timeline = "timeline.html" ∧
    artifactFilename .trace = "trace.txt" ∧
    (∀ (store : String → Except String String) (run_name : String) (k : ArtifactKind),
      download_file_from_stage store run_name (artifactFilename k) =
        match store (fetchPath run_name k) with
        | .ok content => (true, content)
        | .error e => (false, "Error reading file from stage: " ++ e)) ∧
    fetchPath "r017n26s" .timeline = "@NXF_WORKDIR/r017n26s/timeline.html" := by
  refine ⟨fun _ _ => rfl, rfl, rfl, rfl, fun store run_name k => rfl, ?_⟩
  decide

/-- C10: the duration derivation can produce a negative value (it is not
clamped), and on the negative input -1/2 minute the formatter renders
59min30sec: Python floor division and modulo on the negative second count
drop the negative hour component rather than rendering the signed
magnitude. -/
theorem c10_negative_duration_rendering :
    (deriveRecord badRow).execution_time_minutes = -(1/2 : Rat) ∧
    format_execution_time (-(1/2 : Rat)) = "59min30sec" := by
  constructor
  · norm_num [deriveRecord, badRow]
  · rw [format_execution_time, if_neg (by norm_num)]
    rw [show (-(1/2 : Rat) * 60) = ((-30 : Int) : Rat) by norm_num, pyInt_intCast]
    decide

/-- One hundredth: a nonzero duration strictly below one second, on which
every component of the formatted compound string is zero. -/
def q001 : Rat := (1 : Rat) / 100

/-- C7: the formatter renders minutes as a compound hr/min/sec string
omitting zero components; a zero input renders as 0sec; 62.5 minutes
renders as 1hr2min30sec; the output is never the empty string, and whenever
the truncated second count is zero (all components zero) the output is the
smallest unit with value zero. -/
theorem c7_duration_formatting :
    format_execution_time 0 = "0sec" ∧
    format_execution_time ((125 : Rat) / 2) = "1hr2min30sec" ∧
    (∀ m : Rat, format_execution_time m ≠ "") ∧
    (∀ m : Rat, m ≠ 0 → pyInt (m * 60) = 0 → format_execution_time m = "0sec") := by
  refine ⟨by simp [format_execution_time], ?_, ?_, ?_⟩
  · rw [format_execution_time, if_neg (by norm_num)]
    rw [show ((125 : Rat) / 2 * 60) = ((3750 : Int) : Rat) by norm_num, pyInt_intCast]
    decide
  · intro m
    rw [format_execution_time]
    split
    · decide
    · exact formatParts_ne_empty _
  · intro m hm h0
    rw [format_execution_time, if_neg hm, h0]
    decide

/-- Witness for C7 at the concrete sub-second nonzero duration. -/
theorem c7_duration_formatting_witness :
    format_execution_time q001 = "0sec" :=
  c7_duration_formatting.2.2.2 q001 (by norm_num [q001]) (by
    have h : (q001 * 60 : Rat) = mkRat 3 5 := by
      rw [Rat.mkRat_eq_div, q001]
      norm_num
    rw [h]
    decide)

/-- C6: on a nonempty record set the metrics are the record count, the mean
duration, the SUCCESS percentage and the duration sum; on the three-record
example the metrics are count 3, average 10, success rate 200/3 percent
(displayed as 66.7 after the one-decimal rounding of the percent format)
and total 30; and on the empty set every metric is zero with the division
guarded. -/
theorem c6_metrics :
    (∀ l : List RunRecord, l ≠ [] →
      (computeMetrics l).total_runs = l.length ∧
      (computeMetrics l).avg_execution_time_minutes =
        (l.map (fun r => r.execution_time_minutes)).sum / (l.length : Rat) ∧
      (computeMetrics l).success_rate =
        100 * ((l.filter (fun r => r.execution_status == "SUCCESS")).length : Rat)
          / (l.length : Rat) ∧
      (computeMetrics l).total_compute_minutes =
        (l.map (fun r => r.execution_time_minutes)).sum) ∧
    computeMetrics exRecords =
      { total_runs := 3, avg_execution_time_minutes := 10
        success_rate := 200/3, total_compute_minutes := 30 } ∧
    roundTo1 (computeMetrics exRecords).success_rate = 667/10 ∧
    computeMetrics [] =
      { total_runs := 0, avg_execution_time_minutes := 0
        success_rate := 0, total_compute_minutes := 0 } := by
  have hex : computeMetrics exRecords =
      { total_runs := 3, avg_execution_time_minutes := 10
        success_rate := 200/3, total_compute_minutes := 30 } := by
    have hb1 : (("SUCCESS" : String) == "SUCCESS") = true := by decide
    have hb2 : (("ERROR" : String) == "SUCCESS") = false := by decide
    norm_num [computeMetrics, exRecords, exRec1, exRec2, exRec3, List.filter,
      hb1, hb2, Metrics.mk.injEq]
  refine ⟨?_, hex, ?_, by simp [computeMetrics]⟩
  · intro l hl
    have he : l.isEmpty = false := by simpa [List.isEmpty_iff] using hl
    have hpos : 0 < l.length := List.length_pos.mpr hl
    refine ⟨?_, ?_, ?_, ?_⟩
    · simp [computeMetrics, he]
    · simp [computeMetrics, he]
    · simp only [computeMetrics, he, Bool.false_eq_true, if_false, if_pos hpos]
      ring
    · simp [computeMetrics, he]
  · rw [hex]
    norm_num [roundTo1, round_eq]

/-- Witness for C6 at the concrete singleton record list. -/
theorem c6_metrics_witness :
    (computeMetrics [exRec1]).total_runs = [exRec1].length ∧
    (computeMetrics [exRec1]).avg_execution_time_minutes =
      ([exRec1].map (fun r => r.execution_time_minutes)).sum / ([exRec1].length : Rat) ∧
    (computeMetrics [exRec1]).success_rate =
      100 * (([exRec1].filter (fun r => r.execution_status == "SUCCESS")).length : Rat)
        / ([exRec1].length : Rat) ∧
    (computeMetrics [exRec1]).total_compute_minutes =
      ([exRec1].map (fun r => r.execution_time_minutes)).sum :=
  c6_metrics.1 [exRec1] (by simp)

/-- C8: the date, status and duration filters compose as a logical AND with
an empty status criterion acting as pass-through; criteria that restrict
nothing return the input records unchanged and in order; and on the
three-record example the SUCCESS status filter with the inclusive duration
range 5 to 15 keeps exactly the 10-minute SUCCESS record. -/
theorem c8_filter_composition :
    (∀ (records : List RunRecord) (c : FilterCriteria),
      applyFilters records c = records.filter (fun r =>
        (decide (c.start_date ≤ dateOf r.end_time) &&
         decide (dateOf r.end_time ≤ c.end_date)) &&
        (c.status_filter.isEmpty || c.status_filter.contains r.execution_status) &&
        (decide (c.runtime_lo ≤ r.execution_time_minutes) &&
         decide (r.execution_time_minutes ≤ c.runtime_hi)))) ∧
    (∀ (records : List RunRecord) (c : FilterCriteria),
      c.status_filter = [] →
      (∀ r ∈ records, c.start_date ≤ dateOf r.end_time ∧ dateOf r.end_time ≤ c.end_date) →
      (∀ r ∈ records, c.runtime_lo ≤ r.execution_time_minutes ∧
        r.execution_time_minutes ≤ c.runtime_hi) →
      applyFilters records c = records) ∧
    applyFilters exRecords exCriteria = [exRec1] := by
  refine ⟨applyFilters_eq_filter, applyFilters_identity, ?_⟩
  have h1 : dateOf 600 = 0 := by decide
  have h2 : dateOf 1200 = 0 := by decide
  have h3 : dateOf 0 = 0 := by decide
  norm_num [applyFilters, exRecords, exRec1, exRec2, exRec3, exCriteria,
    h1, h2, h3, List.filter]

/-- Witness for C8 at concrete all-covering criteria on a singleton list. -/
theorem c8_filter_composition_witness :
    applyFilters [exRec1]
      { start_date := 0, end_date := 0, status_filter := []
        runtime_lo := 0, runtime_hi := 15 } = [exRec1] :=
  c8_filter_composition.2.1 [exRec1]
    { start_date := 0, end_date := 0, status_filter := []
      runtime_lo := 0, runtime_hi := 15 }
    rfl
    (by intro r hr; simp only [List.mem_singleton] at hr; subst hr; decide)
    (by intro r hr; simp only [List.mem_singleton] at hr; subst hr
        constructor <;> norm_num [exRec1])

/-- The metacharacters of the Python regular-expression syntax. A search
string avoiding all of them is matched literally by re.search. -/
def regexMetachars : List Char :=
  ['.', '^', '$', '*', '+', '?', '\\', '[', ']', '(', ')', '\x7b', '\x7d', '|']

/-- C5, counterexample: the search string consisting of a single dot keeps
the record whose fields are axb, dbx and qtx although the dot occurs
literally in none of them: pandas str.contains defaults to regex=True, so
the search string is a regular-expression pattern, not a literal substring,
and the claim is false as stated. -/
theorem c5_search_regex_counterexample :
    applySearch [dotRec] "." = [dotRec] ∧
    specLiteralSearchMatch dotRec "." = false := by
  decide

/-- C5, amended: for search strings free of regex metacharacters, the filter
keeps exactly the records where the search string occurs as a
case-insensitive literal substring of the run identifier, the database name
or the query text, disjunctively (an empty search string disables the mask,
which coincides with the match-everything semantics of the empty
substring); for general search strings the match is a case-insensitive
regular-expression search, since pandas str.contains defaults to
regex=True. -/
theorem c5_search_amended (records : List RunRecord) (q : String)
    (h : ∀ c ∈ q.data, c ∉ regexMetachars) :
    applySearch records q = records.filter (fun r => specLiteralSearchMatch r q) := by
  have hd0 : '.' ∉ q.data := fun hd => h '.' hd (by simp [regexMetachars])
  have hdot : '.' ∉ lowerChars q.data := dot_not_mem_lowerChars hd0
  by_cases hq : q.isEmpty
  · rw [applySearch, if_pos hq]
    have hqe : q = "" := (String.isEmpty_iff q).mp hq
    subst hqe
    symm
    apply List.filter_eq_self.mpr
    intro r _
    simp [specLiteralSearchMatch, lowerChars,
      show ("" : String).data = ([] : List Char) from rfl, isSubB_nil]
  · rw [applySearch, if_neg hq]
    apply List.filter_congr
    intro r _
    simp only [searchMask, specLiteralSearchMatch, strContains]
    rw [reSearch_eq_isSubB _ hdot, reSearch_eq_isSubB _ hdot, reSearch_eq_isSubB _ hdot]

/-- Witness for C5 amended at a concrete metacharacter-free search string. -/
theorem c5_search_amended_witness :
    applySearch [dotRec] "select" =
      [dotRec].filter (fun r => specLiteralSearchMatch r "select") :=
  c5_search_amended [dotRec] "select" (by decide)

/-- C2, counterexample: sorting the two-record list by END_TIME ascending,
where both records tie on END_TIME, returns them in input order b then a;
the run identifiers are therefore not in order among the tied records, so
sort_values applies no run-identifier secondary key. -/
theorem c2_sort_tiebreak_counterexample :
    sortValues [tieB, tieA] .end_time true = [tieB, tieA] ∧
    tieB.end_time = tieA.end_time ∧
    ¬ (tieB.query_id ≤ tieA.query_id) := by
  refine ⟨by decide, rfl, ?_⟩
  intro hle
  have hlt : ("a" : String) < "b" := by
    rw [String.lt_iff_toList_lt]
    decide
  simp only [tieA, tieB] at hle
  exact absurd hle (not_le.mpr hlt)

/-- C2, amended: sorting is a pure, deterministic function of the record
list, the selected field and the direction; its output is a permutation of
the input ordered by the selected field in the selected direction; but
there is no run-identifier secondary key, so tied records are not reordered
by run identifier (the model keeps them in input order; pandas quicksort
likewise applies no secondary key). -/
theorem c2_sort_amended (records : List RunRecord) (f : SortField) (ascending : Bool) :
    (sortValues records f ascending).Perm records ∧
    List.Sorted (sortRel f ascending) (sortValues records f ascending) := by
  cases ascending with
  | false =>
    exact ⟨List.perm_insertionSort _ records,
      List.sorted_insertionSort (sortFieldGe f) records⟩
  | true =>
    exact ⟨List.perm_insertionSort _ records,
      List.sorted_insertionSort (sortFieldLe f) records⟩

end NfSnowflake
